import Mathlib

/-!
Shallow embedding of the lifecycle coordinator in
`packages/jest-environment-puppeteer/src/env.ts`.

The coordinator keeps three optional references on the per-test-file global
object: a browser handle, a browser context handle and a page handle.  The
automation client (puppeteer) is modelled abstractly: every acquisition
(`connectBrowserFromWorker`, `createIncognitoBrowserContext`, `newPage`)
returns a fresh handle drawn from a counter, and the browser default context
of a browser `b` is the fixed non-incognito context with id `b`.  Calls made
to the automation client and to the page event-listener API are recorded in
an event trace so that theorems can speak about which underlying operations
were invoked and in which order.

A JavaScript function that may `throw` is modelled as returning a `Res`:
the global state after the call together with an optional error message.
A thrown error propagates through `Res.andThen`, which skips the rest of a
composite operation but keeps the mutations already made, exactly as an
exception unwinding through sequenced `await`s does.
-/

namespace JestPuppeteer

/-- A browser-context handle: its identity and whether it is incognito.
The default context of browser `b` is `⟨b, false⟩`; incognito contexts are
created fresh with `incognito = true`. -/
structure Ctx where
  id : Nat
  incognito : Bool
deriving DecidableEq, Repr

/-- One call made to the automation client or to the page listener API. -/
inductive Event where
  | browserConnect (id : Nat)
  | browserDisconnect (id : Nat)
  | createIncognito (id : Nat)
  | contextClose (id : Nat)
  | newPage (id : Nat)
  | pageOn (id : Nat)
  | pageOff (id : Nat)
  | pageClose (id : Nat) (runBeforeUnload : Bool)
deriving DecidableEq, Repr

/-- The fields of `puppeteerConfig` that the coordinator reads:
`browserContext` (absent, "default", "incognito" or anything else),
`exitOnPageError` and `runBeforeUnloadOnClose`. -/
structure Config where
  browserContext : Option String
  exitOnPageError : Bool
  runBeforeUnloadOnClose : Bool
deriving DecidableEq, Repr

/-- The mutable global state: the three optional references, the fresh-handle
counter of the abstract automation client, and the trace of client calls. -/
structure GlobalState where
  browser : Option Nat
  context : Option Ctx
  page : Option Nat
  nextId : Nat
  events : List Event
deriving DecidableEq, Repr

/-- The state before any lifecycle operation has run. -/
def initialState : GlobalState :=
  { browser := none, context := none, page := none, nextId := 0, events := [] }

/-- Result of a lifecycle operation: the state afterwards and the error
thrown, if any. -/
structure Res where
  st : GlobalState
  err : Option String
deriving DecidableEq, Repr

/-- A normal return. -/
def ok (g : GlobalState) : Res := ⟨g, none⟩

/-- A thrown error: the state is whatever it was when the throw happened. -/
def fail (g : GlobalState) (msg : String) : Res := ⟨g, some msg⟩

/-- Sequencing with exception propagation: if the first operation threw, the
second does not run; mutations already made are kept either way. -/
def Res.andThen (r : Res) (f : GlobalState → Res) : Res :=
  match r.err with
  | some _ => r
  | none => f r.st

/-- Embeds `getBrowser`. -/
def getBrowser (g : GlobalState) : Except String Nat :=
  match g.browser with
  | none => Except.error "Cannot access browser before launching browser."
  | some b => Except.ok b

/-- Embeds `getContext`. -/
def getContext (g : GlobalState) : Except String Ctx :=
  match g.context with
  | none => Except.error "Cannot access context before launching context."
  | some c => Except.ok c

/-- Embeds `getPage` (the source message indeed says "browser"). -/
def getPage (g : GlobalState) : Except String Nat :=
  match g.page with
  | none => Except.error "Cannot access page before launching browser."
  | some p => Except.ok p

/-- The default browser context of browser `b`: shared, not incognito. -/
def defaultBrowserContext (b : Nat) : Ctx := ⟨b, false⟩

/-- Embeds `connectBrowser`: fails if a browser is held, otherwise acquires a
fresh browser handle from the worker. -/
def connectBrowser (_cfg : Config) (g : GlobalState) : Res :=
  match g.browser with
  | some _ => fail g "Cannot connect browser before closing previous browser."
  | none =>
    ok { g with
      browser := some g.nextId
      nextId := g.nextId + 1
      events := g.events ++ [Event.browserConnect g.nextId] }

/-- Embeds `disconnectBrowser`: no-op when no browser is held, otherwise
disconnects and clears the reference. -/
def disconnectBrowser (_cfg : Config) (g : GlobalState) : Res :=
  match g.browser with
  | none => ok g
  | some b =>
    ok { g with
      browser := none
      events := g.events ++ [Event.browserDisconnect b] }

/-- Embeds `openPage`: fails if a page is held; otherwise requires a context
(`getContext`), opens a new page on it, and when `exitOnPageError` is set
attaches the `handlePageError` listener (recorded as `Event.pageOn`). -/
def openPage (cfg : Config) (g : GlobalState) : Res :=
  match g.page with
  | some _ => fail g "Cannot open page before closing previous page."
  | none =>
    match getContext g with
    | Except.error e => fail g e
    | Except.ok _ =>
      ok { g with
        page := some g.nextId
        nextId := g.nextId + 1
        events := g.events ++ [Event.newPage g.nextId] ++
          (if cfg.exitOnPageError then [Event.pageOn g.nextId] else []) }

/-- Embeds `closePage`: no-op when no page is held; otherwise, when
`exitOnPageError` is set, first detaches the `handlePageError` listener
(`Event.pageOff`), then closes the page passing `runBeforeUnloadOnClose`,
and clears the reference. -/
def closePage (cfg : Config) (g : GlobalState) : Res :=
  match g.page with
  | none => ok g
  | some p =>
    ok { g with
      page := none
      events := g.events ++
        (if cfg.exitOnPageError then [Event.pageOff p] else []) ++
        [Event.pageClose p cfg.runBeforeUnloadOnClose] }

/-- Embeds `createContext`: fails if a context is held; reads the configured
mode with `?? "default"`; requires a browser (`getBrowser`); `"default"`
takes the browser default context, `"incognito"` creates a fresh incognito
context, and any other mode fails with a message naming the received value.
(The source message quotes the mode names; the quotes are elided here.) -/
def createContext (cfg : Config) (g : GlobalState) : Res :=
  match g.context with
  | some _ => fail g "Cannot create context before closing previous context."
  | none =>
    let configBrowserContext := cfg.browserContext.getD "default"
    match getBrowser g with
    | Except.error e => fail g e
    | Except.ok browser =>
      if configBrowserContext = "default" then
        ok { g with context := some (defaultBrowserContext browser) }
      else if configBrowserContext = "incognito" then
        ok { g with
          context := some ⟨g.nextId, true⟩
          nextId := g.nextId + 1
          events := g.events ++ [Event.createIncognito g.nextId] }
      else
        fail g ("browserContext should be either incognito or default. Received "
          ++ configBrowserContext)

/-- Embeds `closeContext`: no-op when no context is held; otherwise the
underlying `context.close()` is called only when the context is incognito,
and the reference is cleared. -/
def closeContext (_cfg : Config) (g : GlobalState) : Res :=
  match g.context with
  | none => ok g
  | some c =>
    ok { g with
      context := none
      events := g.events ++ (if c.incognito then [Event.contextClose c.id] else []) }

/-- Embeds `initAll`: connect browser, create context, open page. -/
def initAll (cfg : Config) (g : GlobalState) : Res :=
  ((connectBrowser cfg g).andThen (createContext cfg)).andThen (openPage cfg)

/-- Embeds `closeAll`: close page, close context, disconnect browser. -/
def closeAll (cfg : Config) (g : GlobalState) : Res :=
  ((closePage cfg g).andThen (closeContext cfg)).andThen (disconnectBrowser cfg)

/-- Embeds `jestPuppeteer.resetPage`: close then reopen the page. -/
def resetPage (cfg : Config) (g : GlobalState) : Res :=
  (closePage cfg g).andThen (openPage cfg)

/-- Embeds `jestPuppeteer.resetBrowser`: full teardown then full setup. -/
def resetBrowser (cfg : Config) (g : GlobalState) : Res :=
  (closeAll cfg g).andThen (initAll cfg)

/-- The operations a caller of the coordinator can invoke. -/
inductive Op where
  | connectBrowser
  | createContext
  | openPage
  | closePage
  | closeContext
  | disconnectBrowser
  | initAll
  | closeAll
  | resetPage
  | resetBrowser
deriving DecidableEq, Repr

/-- Dispatch one operation. -/
def runOp (cfg : Config) (op : Op) (g : GlobalState) : Res :=
  match op with
  | Op.connectBrowser => connectBrowser cfg g
  | Op.createContext => createContext cfg g
  | Op.openPage => openPage cfg g
  | Op.closePage => closePage cfg g
  | Op.closeContext => closeContext cfg g
  | Op.disconnectBrowser => disconnectBrowser cfg g
  | Op.initAll => initAll cfg g
  | Op.closeAll => closeAll cfg g
  | Op.resetPage => resetPage cfg g
  | Op.resetBrowser => resetBrowser cfg g

/-- Run one operation with its error caught by the caller: the global state
after the call is the result state whether or not the call threw. -/
def stepOp (cfg : Config) (g : GlobalState) (op : Op) : GlobalState :=
  (runOp cfg op g).st

/-- Run a sequence of operations from the initial state, each error caught
by the caller. -/
def runOps (cfg : Config) (ops : List Op) : GlobalState :=
  ops.foldl (stepOp cfg) initialState

/-- The hierarchy invariant: a held page implies a held context, and a held
context implies a held browser. -/
def inv (g : GlobalState) : Prop :=
  (g.page.isSome → g.context.isSome) ∧ (g.context.isSome → g.browser.isSome)

instance (g : GlobalState) : Decidable (inv g) := by
  unfold inv
  infer_instance

/-- Fixture: configuration with mode "default". -/
def cfgDefault : Config := ⟨some "default", false, false⟩

/-- Fixture: configuration with mode "incognito", `exitOnPageError` and
`runBeforeUnloadOnClose` set. -/
def cfgIncognito : Config := ⟨some "incognito", true, true⟩

/-- Fixture: configuration with an unrecognized mode. -/
def cfgBad : Config := ⟨some "weird", false, false⟩

/-- Fixture: state holding only a browser. -/
def gBrowserOnly : GlobalState := ⟨some 0, none, none, 1, []⟩

/-- Fixture: state holding a browser and an incognito context. -/
def gCtxOnly : GlobalState := ⟨some 0, some ⟨1, true⟩, none, 2, []⟩

/-- Fixture: full lifecycle state with the default context. -/
def gFull : GlobalState := ⟨some 0, some ⟨0, false⟩, some 1, 2, []⟩

/-- Fixture: full lifecycle state with an incognito context. -/
def gFullIncog : GlobalState := ⟨some 0, some ⟨1, true⟩, some 2, 3, []⟩

lemma inv_andThen {r : Res} {f : GlobalState → Res}
    (h1 : inv r.st) (h2 : ∀ g, inv g → inv (f g).st) :
    inv (r.andThen f).st := by
  cases hr : r.err
  · simpa [Res.andThen, hr] using h2 _ h1
  · simpa [Res.andThen, hr] using h1

lemma inv_connectBrowser_st (cfg : Config) (g : GlobalState) (h : inv g) :
    inv (connectBrowser cfg g).st := by
  unfold connectBrowser
  cases hb : g.browser
  · exact ⟨fun hp => h.1 hp, fun _ => rfl⟩
  · simpa [fail] using h

lemma inv_createContext_st (cfg : Config) (g : GlobalState) (h : inv g) :
    inv (createContext cfg g).st := by
  cases hc : g.context with
  | some c => simpa [createContext, hc, fail] using h
  | none =>
    cases hb : g.browser with
    | none => simpa [createContext, getBrowser, hc, hb, fail] using h
    | some b =>
      simp only [createContext, getBrowser, hc, hb]
      split_ifs
      · exact ⟨fun _ => by simp [ok], fun _ => by simp [ok, hb]⟩
      · exact ⟨fun _ => by simp [ok], fun _ => by simp [ok, hb]⟩
      · simpa [fail] using h

lemma inv_openPage_st (cfg : Config) (g : GlobalState) (h : inv g) :
    inv (openPage cfg g).st := by
  cases hp : g.page with
  | some p => simpa [openPage, hp, fail] using h
  | none =>
    cases hc : g.context with
    | none => simpa [openPage, getContext, hp, hc, fail] using h
    | some c =>
      simp only [openPage, getContext, hp, hc]
      exact ⟨fun _ => by simp [ok], fun _ => h.2 (by simp [hc])⟩

lemma inv_closePage_st (cfg : Config) (g : GlobalState) (h : inv g) :
    inv (closePage cfg g).st := by
  cases hp : g.page with
  | none => simpa [closePage, hp, ok] using h
  | some p =>
    simp only [closePage, hp, ok]
    exact ⟨fun hp2 => by simp at hp2, fun hc => by simpa using h.2 (by simpa using hc)⟩

lemma closeAll_clears (cfg : Config) (g : GlobalState) :
    (closeAll cfg g).err = none ∧ (closeAll cfg g).st.browser = none ∧
    (closeAll cfg g).st.context = none ∧ (closeAll cfg g).st.page = none := by
  cases hp : g.page <;> cases hc : g.context <;> cases hb : g.browser <;>
    simp [closeAll, Res.andThen, closePage, closeContext, disconnectBrowser, ok, hp, hc, hb]

lemma inv_closeAll_st (cfg : Config) (g : GlobalState) :
    inv (closeAll cfg g).st := by
  obtain ⟨-, h2, h3, h4⟩ := closeAll_clears cfg g
  exact ⟨fun hp => by simp [h4] at hp, fun hc => by simp [h3] at hc⟩

lemma inv_initAll_st (cfg : Config) (g : GlobalState) (h : inv g) :
    inv (initAll cfg g).st := by
  unfold initAll
  exact inv_andThen
    (inv_andThen (inv_connectBrowser_st cfg g h) (fun g2 h2 => inv_createContext_st cfg g2 h2))
    (fun g2 h2 => inv_openPage_st cfg g2 h2)

lemma inv_resetPage_st (cfg : Config) (g : GlobalState) (h : inv g) :
    inv (resetPage cfg g).st := by
  unfold resetPage
  exact inv_andThen (inv_closePage_st cfg g h) (fun g2 h2 => inv_openPage_st cfg g2 h2)

lemma inv_resetBrowser_st (cfg : Config) (g : GlobalState) (_h : inv g) :
    inv (resetBrowser cfg g).st := by
  unfold resetBrowser
  exact inv_andThen (inv_closeAll_st cfg g) (fun g2 h2 => inv_initAll_st cfg g2 h2)

lemma inv_stepOp (cfg : Config) (g : GlobalState) (op : Op)
    (hop : op ≠ Op.closeContext ∧ op ≠ Op.disconnectBrowser) (h : inv g) :
    inv (stepOp cfg g op) := by
  cases op with
  | connectBrowser => exact inv_connectBrowser_st cfg g h
  | createContext => exact inv_createContext_st cfg g h
  | openPage => exact inv_openPage_st cfg g h
  | closePage => exact inv_closePage_st cfg g h
  | closeContext => exact absurd rfl hop.1
  | disconnectBrowser => exact absurd rfl hop.2
  | initAll => exact inv_initAll_st cfg g h
  | closeAll => exact inv_closeAll_st cfg g
  | resetPage => exact inv_resetPage_st cfg g h
  | resetBrowser => exact inv_resetBrowser_st cfg g h

lemma inv_foldl (cfg : Config) (ops : List Op) (g : GlobalState)
    (h : inv g)
    (hops : ∀ op ∈ ops, op ≠ Op.closeContext ∧ op ≠ Op.disconnectBrowser) :
    inv (ops.foldl (stepOp cfg) g) := by
  induction ops generalizing g with
  | nil => exact h
  | cons op rest ih =>
    simp only [List.foldl_cons]
    exact ih _ (inv_stepOp cfg g op (hops op (by simp)) h)
      (fun o ho => hops o (by simp [ho]))

/-- C1, counterexample to the claim as stated: the sequence connectBrowser,
createContext, openPage, closeContext is a sequence of the coordinator's
operations from the initial state after which a page reference is held but
no context reference is held, because `closeContext` clears the context
without requiring the page to be closed first. -/
theorem c1_hierarchy_counterexample :
    ¬ inv (runOps cfgDefault
      [Op.connectBrowser, Op.createContext, Op.openPage, Op.closeContext]) := by
  decide

/-- C1 (amended): for every sequence of the coordinator's operations from the
initial empty state in which the bare releases `closeContext` and
`disconnectBrowser` are never invoked directly (they run only inside the
composite teardowns `closeAll` and `resetBrowser`, which restore the reverse
teardown order), the global state always satisfies: a held page implies a
held context, and a held context implies a held browser. -/
theorem c1_hierarchy_invariant (cfg : Config) (ops : List Op)
    (hops : ∀ op ∈ ops, op ≠ Op.closeContext ∧ op ≠ Op.disconnectBrowser) :
    inv (runOps cfg ops) := by
  unfold runOps
  exact inv_foldl cfg ops initialState ⟨fun hp => by simp [initialState] at hp,
    fun hc => by simp [initialState] at hc⟩ hops

/-- C1 witness: the amended invariant at a concrete operation sequence. -/
theorem c1_hierarchy_invariant_witness :
    inv (runOps cfgDefault
      [Op.initAll, Op.resetPage, Op.closeAll, Op.resetBrowser, Op.openPage]) :=
  c1_hierarchy_invariant cfgDefault
    [Op.initAll, Op.resetPage, Op.closeAll, Op.resetBrowser, Op.openPage]
    (by decide)

/-- C2: when the corresponding resource is already held, `connectBrowser`,
`createContext` and `openPage` each throw their descriptive error and leave
the state exactly as it was (no second handle is acquired). -/
theorem c2_acquire_twice_fails (cfg : Config) (g : GlobalState) :
    (g.browser.isSome = true →
      connectBrowser cfg g =
        fail g "Cannot connect browser before closing previous browser.") ∧
    (g.context.isSome = true →
      createContext cfg g =
        fail g "Cannot create context before closing previous context.") ∧
    (g.page.isSome = true →
      openPage cfg g =
        fail g "Cannot open page before closing previous page.") := by
  refine ⟨fun h => ?_, fun h => ?_, fun h => ?_⟩
  · cases hb : g.browser with
    | none => simp [hb] at h
    | some b => simp [connectBrowser, hb]
  · cases hc : g.context with
    | none => simp [hc] at h
    | some c => simp [createContext, hc]
  · cases hp : g.page with
    | none => simp [hp] at h
    | some p => simp [openPage, hp]

/-- C2 witness: the three double-acquisition failures at a concrete full
state. -/
theorem c2_acquire_twice_fails_witness :
    connectBrowser cfgDefault gFull =
      fail gFull "Cannot connect browser before closing previous browser." ∧
    createContext cfgDefault gFull =
      fail gFull "Cannot create context before closing previous context." ∧
    openPage cfgDefault gFull =
      fail gFull "Cannot open page before closing previous page." :=
  ⟨(c2_acquire_twice_fails cfgDefault gFull).1 (by decide),
   (c2_acquire_twice_fails cfgDefault gFull).2.1 (by decide),
   (c2_acquire_twice_fails cfgDefault gFull).2.2 (by decide)⟩

/-- C4: releasing an unheld resource is an error-free no-op that leaves the
entire global state unchanged, for `closePage`, `closeContext` and
`disconnectBrowser`. -/
theorem c4_release_unheld_noop (cfg : Config) (g : GlobalState) :
    (g.page = none → closePage cfg g = ok g) ∧
    (g.context = none → closeContext cfg g = ok g) ∧
    (g.browser = none → disconnectBrowser cfg g = ok g) := by
  exact ⟨fun h => by simp [closePage, h], fun h => by simp [closeContext, h],
    fun h => by simp [disconnectBrowser, h]⟩

/-- C4 witness: the three no-op releases at the initial state. -/
theorem c4_release_unheld_noop_witness :
    closePage cfgDefault initialState = ok initialState ∧
    closeContext cfgDefault initialState = ok initialState ∧
    disconnectBrowser cfgDefault initialState = ok initialState :=
  ⟨(c4_release_unheld_noop cfgDefault initialState).1 rfl,
   (c4_release_unheld_noop cfgDefault initialState).2.1 rfl,
   (c4_release_unheld_noop cfgDefault initialState).2.2 rfl⟩

/-- C5: accessing an unheld resource fails with the descriptive error, for
`getBrowser`, `getContext` and `getPage`. -/
theorem c5_access_before_acquire_fails (g : GlobalState) :
    (g.browser = none → getBrowser g =
      Except.error "Cannot access browser before launching browser.") ∧
    (g.context = none → getContext g =
      Except.error "Cannot access context before launching context.") ∧
    (g.page = none → getPage g =
      Except.error "Cannot access page before launching browser.") := by
  exact ⟨fun h => by simp [getBrowser, h], fun h => by simp [getContext, h],
    fun h => by simp [getPage, h]⟩

/-- C5 witness: the three access failures at the initial state. -/
theorem c5_access_before_acquire_fails_witness :
    getBrowser initialState =
      Except.error "Cannot access browser before launching browser." ∧
    getContext initialState =
      Except.error "Cannot access context before launching context." ∧
    getPage initialState =
      Except.error "Cannot access page before launching browser." :=
  ⟨(c5_access_before_acquire_fails initialState).1 rfl,
   (c5_access_before_acquire_fails initialState).2.1 rfl,
   (c5_access_before_acquire_fails initialState).2.2 rfl⟩

/-- C9: from a full lifecycle state whose held handles were previously issued
by the client (their ids are below the fresh-handle counter, which is what
"the automation client returns fresh handles on each acquisition" means
here), `resetPage` completes with a page reference different from the
pre-reset one, and `resetBrowser` completes with browser, context and page
references all different from the pre-reset ones. -/
theorem c9_reset_yields_fresh (cfg : Config) (g : GlobalState) (b p : Nat) (c : Ctx)
    (hmode : cfg.browserContext = none ∨ cfg.browserContext = some "default" ∨
      cfg.browserContext = some "incognito")
    (hb : g.browser = some b) (hc : g.context = some c) (hp : g.page = some p)
    (hfb : b < g.nextId) (hfc : c.id < g.nextId) (hfp : p < g.nextId) :
    ((resetPage cfg g).err = none ∧ (resetPage cfg g).st.page ≠ some p) ∧
    ((resetBrowser cfg g).err = none ∧
      (resetBrowser cfg g).st.browser ≠ some b ∧
      (resetBrowser cfg g).st.context ≠ some c ∧
      (resetBrowser cfg g).st.page ≠ some p) := by
  obtain ⟨cid, cinc⟩ := c
  simp only [Ctx.mk.injEq] at hfc ⊢
  constructor
  · constructor
    · simp [resetPage, Res.andThen, closePage, openPage, getContext, hp, hc, ok]
    · simp [resetPage, Res.andThen, closePage, openPage, getContext, hp, hc, ok]
      omega
  · rcases hmode with hm | hm | hm <;>
      simp [resetBrowser, closeAll, initAll, Res.andThen, closePage, closeContext,
        disconnectBrowser, connectBrowser, createContext, openPage, getBrowser,
        getContext, hp, hc, hb, hm, ok, fail, defaultBrowserContext, Ctx.mk.injEq,
        Option.getD] <;> omega

/-- C9 witness: both resets at a concrete full state yield fresh handles. -/
theorem c9_reset_yields_fresh_witness :
    ((resetPage cfgDefault gFull).err = none ∧
      (resetPage cfgDefault gFull).st.page ≠ some 1) ∧
    ((resetBrowser cfgDefault gFull).err = none ∧
      (resetBrowser cfgDefault gFull).st.browser ≠ some 0 ∧
      (resetBrowser cfgDefault gFull).st.context ≠ some ⟨0, false⟩ ∧
      (resetBrowser cfgDefault gFull).st.page ≠ some 1) :=
  c9_reset_yields_fresh cfgDefault gFull 0 1 ⟨0, false⟩ (Or.inr (Or.inl rfl))
    rfl rfl rfl (by decide) (by decide) (by decide)

/-- C10: whenever `connectBrowser`, `createContext` or `openPage` throws, the
error is raised before any mutation: the resulting global state is exactly
the state before the call. -/
theorem c10_error_atomicity (cfg : Config) (g : GlobalState) :
    ((connectBrowser cfg g).err.isSome = true → (connectBrowser cfg g).st = g) ∧
    ((createContext cfg g).err.isSome = true → (createContext cfg g).st = g) ∧
    ((openPage cfg g).err.isSome = true → (openPage cfg g).st = g) := by
  refine ⟨fun h => ?_, fun h => ?_, fun h => ?_⟩
  · cases hb : g.browser with
    | none => simp [connectBrowser, hb, ok] at h
    | some b => simp [connectBrowser, hb, fail]
  · cases hc : g.context with
    | some c => simp [createContext, hc, fail]
    | none =>
      cases hb : g.browser with
      | none => simp [createContext, getBrowser, hc, hb, fail]
      | some b =>
        simp only [createContext, getBrowser, hc, hb] at h ⊢
        split_ifs at h ⊢ <;> simp_all [ok, fail]
  · cases hp : g.page with
    | some p => simp [openPage, hp, fail]
    | none =>
      cases hc : g.context with
      | none => simp [openPage, getContext, hp, hc, fail]
      | some c => simp [openPage, getContext, hp, hc, ok] at h

/-- C3: with no context held and a browser held, `createContext` takes the
browser default context when the mode is "default" or unset, creates a fresh
incognito context when the mode is "incognito", and for any other mode fails
with an error message that names the received value. -/
theorem c3_createContext_mode (cfg : Config) (g : GlobalState) (b : Nat)
    (hc : g.context = none) (hb : g.browser = some b) :
    ((cfg.browserContext = none ∨ cfg.browserContext = some "default") →
      createContext cfg g = ok { g with context := some (defaultBrowserContext b) }) ∧
    (cfg.browserContext = some "incognito" →
      createContext cfg g = ok { g with
        context := some ⟨g.nextId, true⟩
        nextId := g.nextId + 1
        events := g.events ++ [Event.createIncognito g.nextId] }) ∧
    (∀ m : String, cfg.browserContext = some m → m ≠ "default" → m ≠ "incognito" →
      createContext cfg g =
        fail g ("browserContext should be either incognito or default. Received "
          ++ m)) := by
  refine ⟨fun hm => ?_, fun hm => ?_, fun m hm h1 h2 => ?_⟩
  · rcases hm with hm | hm <;>
      simp [createContext, getBrowser, hc, hb, hm, Option.getD]
  · simp [createContext, getBrowser, hc, hb, hm, Option.getD]
  · simp [createContext, getBrowser, hc, hb, hm, Option.getD, h1, h2]

/-- C3 witness: the three mode behaviours at a concrete browser-only state. -/
theorem c3_createContext_mode_witness :
    createContext cfgDefault gBrowserOnly =
      ok { gBrowserOnly with context := some (defaultBrowserContext 0) } ∧
    createContext cfgIncognito gBrowserOnly =
      ok { gBrowserOnly with
        context := some ⟨gBrowserOnly.nextId, true⟩
        nextId := gBrowserOnly.nextId + 1
        events := gBrowserOnly.events ++ [Event.createIncognito gBrowserOnly.nextId] } ∧
    createContext cfgBad gBrowserOnly =
      fail gBrowserOnly ("browserContext should be either incognito or default. Received "
        ++ "weird") :=
  ⟨(c3_createContext_mode cfgDefault gBrowserOnly 0 rfl rfl).1 (Or.inr rfl),
   (c3_createContext_mode cfgIncognito gBrowserOnly 0 rfl rfl).2.1 rfl,
   (c3_createContext_mode cfgBad gBrowserOnly 0 rfl rfl).2.2 "weird" rfl
     (by decide) (by decide)⟩

/-- C6: from the initial state, full setup (`initAll`) followed by full
teardown (`closeAll`) completes without error and clears the browser,
context and page references back to their initial (empty) values, for every
recognized context mode. -/
theorem c6_setup_teardown_roundtrip (cfg : Config)
    (hmode : cfg.browserContext = none ∨ cfg.browserContext = some "default" ∨
      cfg.browserContext = some "incognito") :
    ((initAll cfg initialState).andThen (closeAll cfg)).err = none ∧
    ((initAll cfg initialState).andThen (closeAll cfg)).st.browser = initialState.browser ∧
    ((initAll cfg initialState).andThen (closeAll cfg)).st.context = initialState.context ∧
    ((initAll cfg initialState).andThen (closeAll cfg)).st.page = initialState.page := by
  have h1 : (initAll cfg initialState).err = none := by
    rcases hmode with hm | hm | hm <;>
      simp [initAll, Res.andThen, connectBrowser, createContext, openPage,
        getBrowser, getContext, initialState, ok, hm, Option.getD]
  have h2 := closeAll_clears cfg (initAll cfg initialState).st
  have hand : (initAll cfg initialState).andThen (closeAll cfg) =
      closeAll cfg (initAll cfg initialState).st := by
    unfold Res.andThen
    rw [h1]
  rw [hand]
  exact ⟨h2.1, h2.2.1, h2.2.2.1, h2.2.2.2⟩

/-- C6 witness: the roundtrip at the concrete default configuration. -/
theorem c6_setup_teardown_roundtrip_witness :
    ((initAll cfgDefault initialState).andThen (closeAll cfgDefault)).err = none ∧
    ((initAll cfgDefault initialState).andThen (closeAll cfgDefault)).st.browser =
      initialState.browser ∧
    ((initAll cfgDefault initialState).andThen (closeAll cfgDefault)).st.context =
      initialState.context ∧
    ((initAll cfgDefault initialState).andThen (closeAll cfgDefault)).st.page =
      initialState.page :=
  c6_setup_teardown_roundtrip cfgDefault (Or.inr (Or.inl rfl))

/-- C7: with a context held, `closeContext` completes without error, clears
the context reference, and issues the underlying context-close call exactly
when the held context is incognito; for a non-incognito context no client
call is made at all. -/
theorem c7_close_context_iff_incognito (cfg : Config) (g : GlobalState) (c : Ctx)
    (h : g.context = some c) :
    (closeContext cfg g).err = none ∧
    (closeContext cfg g).st.context = none ∧
    ((closeContext cfg g).st.events = g.events ++ [Event.contextClose c.id] ↔
      c.incognito = true) ∧
    (c.incognito = false → (closeContext cfg g).st.events = g.events) := by
  simp only [closeContext, h]
  cases hinc : c.incognito <;> simp [ok]

/-- C7 witness: closing a concrete held incognito context. -/
theorem c7_close_context_iff_incognito_witness :
    (closeContext cfgDefault gFullIncog).err = none ∧
    (closeContext cfgDefault gFullIncog).st.context = none ∧
    ((closeContext cfgDefault gFullIncog).st.events =
      gFullIncog.events ++ [Event.contextClose (⟨1, true⟩ : Ctx).id] ↔
      (⟨1, true⟩ : Ctx).incognito = true) ∧
    ((⟨1, true⟩ : Ctx).incognito = false →
      (closeContext cfgDefault gFullIncog).st.events = gFullIncog.events) :=
  c7_close_context_iff_incognito cfgDefault gFullIncog ⟨1, true⟩ rfl

/-- C8: `openPage` records the page-error listener attachment exactly when
`exitOnPageError` is set, and `closePage` records the matching detachment,
again exactly when `exitOnPageError` is set, before the page-close call. -/
theorem c8_page_error_listener (cfg : Config) (g : GlobalState) (p : Nat)
    (hc : g.context.isSome = true) :
    (g.page = none →
      (openPage cfg g).st.events =
        g.events ++ [Event.newPage g.nextId] ++
          (if cfg.exitOnPageError then [Event.pageOn g.nextId] else [])) ∧
    (g.page = some p →
      (closePage cfg g).st.events =
        g.events ++ (if cfg.exitOnPageError then [Event.pageOff p] else []) ++
          [Event.pageClose p cfg.runBeforeUnloadOnClose]) := by
  constructor
  · intro hp
    cases hctx : g.context with
    | none => simp [hctx] at hc
    | some c => simp [openPage, getContext, hp, hctx, ok]
  · intro hp
    simp [closePage, hp, ok]

/-- C8 witness: listener attach on open and detach-before-close on close, at
concrete states with `exitOnPageError` set. -/
theorem c8_page_error_listener_witness :
    (openPage cfgIncognito gCtxOnly).st.events =
      gCtxOnly.events ++ [Event.newPage gCtxOnly.nextId] ++
        (if cfgIncognito.exitOnPageError then [Event.pageOn gCtxOnly.nextId] else []) ∧
    (closePage cfgIncognito gFullIncog).st.events =
      gFullIncog.events ++ (if cfgIncognito.exitOnPageError then [Event.pageOff 2] else []) ++
        [Event.pageClose 2 cfgIncognito.runBeforeUnloadOnClose] :=
  ⟨(c8_page_error_listener cfgIncognito gCtxOnly 0 rfl).1 rfl,
   (c8_page_error_listener cfgIncognito gFullIncog 2 rfl).2 rfl⟩

/-- C10 witness: failing calls at a concrete full state leave it unchanged. -/
theorem c10_error_atomicity_witness :
    (connectBrowser cfgDefault gFull).st = gFull ∧
    (createContext cfgDefault gFull).st = gFull ∧
    (openPage cfgDefault gFull).st = gFull :=
  ⟨(c10_error_atomicity cfgDefault gFull).1 (by decide),
   (c10_error_atomicity cfgDefault gFull).2.1 (by decide),
   (c10_error_atomicity cfgDefault gFull).2.2 (by decide)⟩

end JestPuppeteer
